import Mathlib

/-!
Verification of `src/SciFest/pump_control.cpp`, a single-threaded pump/vent
controller driven by a TCP command stream, local operator input and a 1-second
periodic tick.

The embedding is a shallow one: the single-threaded event loop is modelled as a
step function on an explicit controller state, with the outside world (socket
readiness, read outcomes, the interrupt flag observed at checkpoints) supplied
as an input event per loop iteration.  Hardware writes, delays, socket closes,
outbound messages and the final line-request release are recorded in a trace of
primitive events; the logical valve state is the fold of that trace.
-/

set_option autoImplicit false

namespace PumpControl

/-- Primitive observable actions of the program, in program order.
`setPump b` / `setVent b` are `set_valve(req, PUMP_OFFSET/VENT_OFFSET, ...)`
with `b = true` for `ValveState::On` (logical assertion; the active-low
polarity inversion happens below this interface).  `waitMs` covers both
`sleep_ms` and `sleep_s` (seconds scaled to milliseconds).  `send` is a
`write` of an outbound protocol message, `closeFd` is `close(sockfd)`, and
`release` is `gpiod_line_request_release(req)`. -/
inductive Ev where
  | setPump (b : Bool)
  | setVent (b : Bool)
  | waitMs (n : Nat)
  | send (msg : List Char)
  | closeFd
  | release
deriving DecidableEq, Repr

/-- Logical valve state: the two booleans mirrored onto the hardware lines. -/
structure Valves where
  pump : Bool
  vent : Bool
deriving DecidableEq, Repr

/-- Effect of one primitive event on the logical valve state. -/
def applyEv (v : Valves) : Ev → Valves
  | .setPump b => { v with pump := b }
  | .setVent b => { v with vent := b }
  | _ => v

/-- Valve state after running a trace of events. -/
def runTr (v : Valves) (tr : List Ev) : Valves := tr.foldl applyEv v

/-- `enum class State { WAITING, DELIVERING };` -/
inductive State where
  | WAITING
  | DELIVERING
deriving DecidableEq, Repr

/-- The mutable controller state threaded through the event loop:
`state` (line 196), `is_on` (line 193), `send_counter` (line 197), and the
logical valve state (the fold of all hardware writes so far).
`send_counter` is a C++ `int` that is only ever incremented from 0 or reset
to 0, so `Nat` models it faithfully. -/
structure Ctrl where
  state : State
  is_on : Bool
  valves : Valves
  send_counter : Nat
deriving DecidableEq, Repr

/-- Leading-match test on char lists: does the second list start with `pat`? -/
def startsWithL : List Char → List Char → Bool
  | [], _ => true
  | _ :: _, [] => false
  | a :: pa, b :: hb => a == b && startsWithL pa hb

/-- `cmd.find(pat) != std::string::npos`: substring containment of `pat`
anywhere in `hay`. -/
def hasSub (pat : List Char) : List Char → Bool
  | [] => startsWithL pat []
  | b :: rest => startsWithL pat (b :: rest) || hasSub pat rest

/-- Inbound substring recognized at line 292. -/
def pickupStr : List Char := "pickup reached".data

/-- Inbound substring recognized at line 294. -/
def dropStr : List Char := "drop reached".data

/-- Inbound substring recognized at line 296. -/
def finStr : List Char := "one sticker finished".data

/-- Outbound heartbeat message (line 257). -/
def heartbeatMsg : List Char := "wait until next sticker\n".data

/-- Outbound delivery-start message (line 268). -/
def deliverMsg : List Char := "deliver a new sticker\n".data

/-- Trace of the `pump_on` lambda (lines 178-181): a single pump assertion. -/
def pump_on_tr : List Ev := [.setPump true]

/-- Trace of the `pump_off` lambda (lines 183-191): deassert pump, wait 50 ms,
assert vent, wait 1000 ms (`sleep_s(1)`), deassert vent, wait 50 ms. -/
def pump_off_tr : List Ev :=
  [.setPump false, .waitMs 50, .setVent true, .waitMs 1000, .setVent false, .waitMs 50]

/-- Command dispatch on a received buffer (lines 288-301): only acts in
`DELIVERING`; an if/else chain tests `pickup reached`, then `drop reached`,
then `one sticker finished`; pump actuation is guarded by `is_on`. -/
def dispatchCmd (s : Ctrl) (cmd : List Char) : Ctrl × List Ev :=
  if s.state = State.DELIVERING then
    if hasSub pickupStr cmd then
      if s.is_on then (s, [])
      else ({ s with is_on := true, valves := runTr s.valves pump_on_tr }, pump_on_tr)
    else if hasSub dropStr cmd then
      if s.is_on then
        ({ s with is_on := false, valves := runTr s.valves pump_off_tr }, pump_off_tr)
      else (s, [])
    else if hasSub finStr cmd then
      ({ s with state := State.WAITING }, [])
    else (s, [])
  else (s, [])

/-- Periodic-tick branch of the event loop (lines 252-262): in `WAITING`,
increment `send_counter`; once it reaches 10, send the heartbeat and reset. -/
def tickStep (s : Ctrl) : Ctrl × List Ev :=
  if s.state = State.WAITING then
    if 10 ≤ s.send_counter + 1 then
      ({ s with send_counter := 0 }, [.send heartbeatMsg])
    else ({ s with send_counter := s.send_counter + 1 }, [])
  else (s, [])

/-- Local operator input branch (lines 264-273): one character is read; a
newline while `WAITING` sends `deliver a new sticker` and moves to
`DELIVERING`.  Note the source does not touch `send_counter` here. -/
def stdinStep (s : Ctrl) (c : Char) : Ctrl × List Ev :=
  if c = '\n' ∧ s.state = State.WAITING then
    ({ s with state := State.DELIVERING }, [.send deliverMsg])
  else (s, [])

/-- Decisive outcome ending a run of the `reconnect` retry loop
(lines 200-235): the interrupt flag observed false at the loop top
(`shutdown`), `socket()` returning a negative descriptor (`sockFail`), or a
successful connect (`connOk`). -/
inductive RFinal where
  | shutdown
  | sockFail
  | connOk
deriving DecidableEq, Repr

/-- The `reconnect` lambda (lines 200-235), run for `n` failed connect
attempts followed by the decisive outcome `fin`.  Each failed attempt closes
the socket and sleeps 5 s; on success the delivery state is forced to
`WAITING` and `send_counter` to 0; on `shutdown` or `sockFail` it returns
`false` leaving the controller state untouched.  Result: (return value,
controller state, trace). -/
def reconnect (s : Ctrl) : Nat → RFinal → Bool × Ctrl × List Ev
  | 0, .shutdown => (false, s, [])
  | 0, .sockFail => (false, s, [])
  | 0, .connOk => (true, { s with state := State.WAITING, send_counter := 0 }, [])
  | n + 1, fin =>
    let r := reconnect s n fin
    (r.1, r.2.1, Ev.closeFd :: Ev.waitMs 5000 :: r.2.2)

/-- Outcome of `read(sockfd, ...)` when the socket is readable
(lines 275-300): orderly close (`n == 0`), a read error (`n < 0`), or a
payload.  The two failure forms carry the environment of the `reconnect`
run they trigger. -/
inductive SockEvent where
  | closed (n : Nat) (fin : RFinal)
  | rerr (n : Nat) (fin : RFinal)
  | data (buf : List Char)
deriving DecidableEq, Repr

/-- One iteration's worth of external input to the event loop (lines 237-303):
the interrupt flag observed false at the loop top, a `select` failure with
`errno == EINTR`, a `select` failure triggering reconnect, the 1 s timeout
tick, or readiness (optional one stdin character, optional socket event;
stdin is handled before the socket, as in the source). -/
inductive LoopInput where
  | shutdown
  | selErrIntr
  | selErr (n : Nat) (fin : RFinal)
  | tick
  | ready (c : Option Char) (sk : Option SockEvent)
deriving DecidableEq, Repr

/-- Result of one event-loop iteration: whether the loop continues, the new
controller state, and the trace emitted during the iteration. -/
structure StepRes where
  cont : Bool
  st : Ctrl
  tr : List Ev
deriving DecidableEq, Repr

/-- One iteration of the event loop body (lines 237-303).  `cont = false`
when the `while` condition fails (`shutdown`) or a failed `reconnect`
triggers `break`. -/
def loopStep (s : Ctrl) : LoopInput → StepRes
  | .shutdown => ⟨false, s, []⟩
  | .selErrIntr => ⟨true, s, []⟩
  | .selErr n fin =>
    let r := reconnect s n fin
    ⟨r.1, r.2.1, Ev.closeFd :: r.2.2⟩
  | .tick =>
    let r := tickStep s
    ⟨true, r.1, r.2⟩
  | .ready c sk =>
    let r1 := match c with
      | some ch => stdinStep s ch
      | none => (s, [])
    match sk with
    | none => ⟨true, r1.1, r1.2⟩
    | some (.data buf) =>
      let r2 := dispatchCmd r1.1 buf
      ⟨true, r2.1, r1.2 ++ r2.2⟩
    | some (.closed n fin) | some (.rerr n fin) =>
      let r2 := reconnect r1.1 n fin
      ⟨r2.1, r2.2.1, r1.2 ++ Ev.closeFd :: r2.2.2⟩

/-- Run the event loop on a list of per-iteration inputs.  Result: `true`
when the inputs ran out with the loop still live, `false` when the loop
exited (shutdown observed or reconnect abandoned), with final controller
state and accumulated trace. -/
def runLoop (s : Ctrl) : List LoopInput → Bool × Ctrl × List Ev
  | [] => (true, s, [])
  | i :: rest =>
    let r := loopStep s i
    if r.cont then
      let t := runLoop r.st rest
      (t.1, t.2.1, r.tr ++ t.2.2)
    else (false, r.st, r.tr)

/-- The code after the event loop exits (lines 305-325): close the socket,
run `pump_off` if the pump is logically on, otherwise force both lines
deasserted; then release the line request and return 0.  Result: final
controller state, trace, exit status. -/
def exitSeq (s : Ctrl) : Ctrl × List Ev × Nat :=
  let shut :=
    if s.is_on then
      ({ s with is_on := false, valves := runTr s.valves pump_off_tr }, pump_off_tr)
    else
      ({ s with valves := runTr s.valves [Ev.setPump false, Ev.setVent false] },
        [Ev.setPump false, Ev.setVent false])
  (shut.1, Ev.closeFd :: shut.2 ++ [Ev.release], 0)

/-- The event loop followed by the shutdown path: `none` while inputs ran out
with the loop still live, otherwise the final state, full trace and the
process exit status. -/
def runProgram (s : Ctrl) (ins : List LoopInput) : Option (Ctrl × List Ev × Nat) :=
  let r := runLoop s ins
  if r.1 then none
  else
    let e := exitSeq r.2.1
    some (e.1, r.2.2 ++ e.2.1, e.2.2)

/-- Decisive outcome of the initial connect loop (lines 130-159): interrupt
flag observed false, `socket()` failure on an attempt, or a successful
connect. -/
inductive InitOutcome where
  | shutdownObserved
  | sockCreateFail
  | connected
deriving DecidableEq, Repr

/-- Trace of `n` failed initial connect attempts: each closes the socket and
sleeps 5 s (lines 156-158). -/
def initRetryTr : Nat → List Ev
  | 0 => []
  | n + 1 => Ev.closeFd :: Ev.waitMs 5000 :: initRetryTr n

/-- The startup safety baseline (lines 109-111): both lines forced
deasserted before anything else. -/
def startupTr : List Ev := [Ev.setPump false, Ev.setVent false]

/-- Result of the pre-loop phase of `main`: trace so far, and `some code`
if the process returned before the event loop, `none` if it falls through
into the event loop. -/
structure InitRes where
  tr : List Ev
  exited : Option Nat
deriving DecidableEq, Repr

/-- `main` from the startup baseline (line 109) to the top of the event loop
(line 237): the initial connect loop runs `n` failed attempts and then hits
`fin`.  If the interrupt flag was observed false, both lines are forced
deasserted, the request is released and the process returns 1 (lines
161-172).  A `socket()` failure breaks out of the connect loop (line 132)
and — the interrupt flag still being true — falls through into the event
loop, exactly like a successful connect. -/
def initPhase (n : Nat) (fin : InitOutcome) : InitRes :=
  match fin with
  | .shutdownObserved =>
    ⟨startupTr ++ initRetryTr n ++ [Ev.setPump false, Ev.setVent false, Ev.release], some 1⟩
  | .sockCreateFail => ⟨startupTr ++ initRetryTr n, none⟩
  | .connected => ⟨startupTr ++ initRetryTr n, none⟩

/-- Controller state at entry to the event loop: `WAITING`, pump logically
off, both lines deasserted, counter 0 (lines 109-111, 193-197). -/
def ctrl0 : Ctrl := ⟨State.WAITING, false, ⟨false, false⟩, 0⟩

/-- Recognizer for the heartbeat message event. -/
def isHb : Ev → Bool
  | .send m => m == heartbeatMsg
  | _ => false

/-- Recognizer for pump-line writes. -/
def isPumpEv : Ev → Bool
  | .setPump _ => true
  | _ => false

/-- Recognizer for actuator writes (pump or vent line). -/
def isActEv : Ev → Bool
  | .setPump _ => true
  | .setVent _ => true
  | _ => false

/-- State invariant at event-loop iteration boundaries: the vent is closed
and the logical `is_on` flag agrees with the pump line. -/
def Inv (s : Ctrl) : Prop := s.valves.vent = false ∧ s.valves.pump = s.is_on

/-- Sequential processing of a list of received buffers (each one a separate
successful `read`), accumulating the traces. -/
def dispatchList (s : Ctrl) : List (List Char) → Ctrl × List Ev
  | [] => (s, [])
  | c :: rest =>
    let r := dispatchCmd s c
    let t := dispatchList r.1 rest
    (t.1, r.2 ++ t.2)

/-! ### Helper lemmas -/

theorem runTr_pump_off (v : Valves) : runTr v pump_off_tr = ⟨false, false⟩ := by
  cases v
  simp [runTr, pump_off_tr, applyEv]

theorem runTr_pump_on (v : Valves) : runTr v pump_on_tr = { v with pump := true } := by
  cases v
  simp [runTr, pump_on_tr, applyEv]

theorem reconnect_success (s : Ctrl) :
    ∀ (n : Nat) (fin : RFinal), (reconnect s n fin).1 = true →
      (reconnect s n fin).2.1.state = State.WAITING ∧
        (reconnect s n fin).2.1.send_counter = 0 := by
  intro n
  induction n with
  | zero => intro fin h; cases fin <;> simp_all [reconnect]
  | succ n ih => intro fin h; simpa [reconnect] using ih fin (by simpa [reconnect] using h)

theorem reconnect_frame (s : Ctrl) :
    ∀ (n : Nat) (fin : RFinal),
      (reconnect s n fin).2.1.valves = s.valves ∧
        (reconnect s n fin).2.1.is_on = s.is_on := by
  intro n
  induction n with
  | zero => intro fin; cases fin <;> simp [reconnect]
  | succ n ih => intro fin; simpa [reconnect] using ih fin

theorem reconnect_backoff (s : Ctrl) :
    ∀ (n : Nat) (fin : RFinal),
      ((reconnect s n fin).2.2).countP (fun e => e == Ev.waitMs 5000) = n := by
  intro n
  induction n with
  | zero => intro fin; cases fin <;> simp [reconnect]
  | succ n ih => intro fin; simp [reconnect, List.countP_cons, ih fin]

theorem reconnect_connOk (s : Ctrl) :
    ∀ (n : Nat), (reconnect s n RFinal.connOk).1 = true := by
  intro n
  induction n with
  | zero => simp [reconnect]
  | succ n ih => simpa [reconnect] using ih

theorem dispatchCmd_counter (s : Ctrl) (cmd : List Char) :
    (dispatchCmd s cmd).1.send_counter = s.send_counter := by
  unfold dispatchCmd
  repeat' split
  all_goals simp

theorem dispatchCmd_waiting (s : Ctrl) (cmd : List Char)
    (h : s.state = State.WAITING) : dispatchCmd s cmd = (s, []) := by
  unfold dispatchCmd
  rw [h]
  simp

theorem dispatchCmd_inv (s : Ctrl) (cmd : List Char) (h : Inv s) :
    Inv (dispatchCmd s cmd).1 := by
  obtain ⟨h1, h2⟩ := h
  unfold dispatchCmd
  repeat' split
  all_goals simp_all [Inv, runTr_pump_on, runTr_pump_off]

theorem tickStep_inv (s : Ctrl) (h : Inv s) : Inv (tickStep s).1 := by
  obtain ⟨h1, h2⟩ := h
  unfold tickStep
  repeat' split
  all_goals simp_all [Inv]

theorem stdinStep_inv (s : Ctrl) (c : Char) (h : Inv s) : Inv (stdinStep s c).1 := by
  obtain ⟨h1, h2⟩ := h
  unfold stdinStep
  split
  all_goals simp_all [Inv]

theorem reconnect_inv (s : Ctrl) (n : Nat) (fin : RFinal) (h : Inv s) :
    Inv (reconnect s n fin).2.1 := by
  obtain ⟨hf1, hf2⟩ := reconnect_frame s n fin
  exact ⟨by rw [hf1]; exact h.1, by rw [hf1, hf2]; exact h.2⟩

theorem loopStep_inv (s : Ctrl) (i : LoopInput) (h : Inv s) :
    Inv (loopStep s i).st := by
  cases i with
  | shutdown => exact h
  | selErrIntr => exact h
  | selErr n fin => exact reconnect_inv s n fin h
  | tick => exact tickStep_inv s h
  | ready c sk =>
    have h1 : Inv (match c with | some ch => stdinStep s ch | none => (s, [])).1 := by
      cases c with
      | none => exact h
      | some ch => exact stdinStep_inv s ch h
    cases sk with
    | none => exact h1
    | some se =>
      cases se with
      | data buf => exact dispatchCmd_inv _ buf h1
      | closed n fin => exact reconnect_inv _ n fin h1
      | rerr n fin => exact reconnect_inv _ n fin h1

theorem tickStep_emits (s : Ctrl) :
    (tickStep s).2 ≠ [] ↔ s.state = State.WAITING ∧ 9 ≤ s.send_counter := by
  unfold tickStep
  repeat' split
  all_goals simp_all

theorem tickStep_reset (s : Ctrl) (h : (tickStep s).2 ≠ []) :
    (tickStep s).1.send_counter = 0 := by
  unfold tickStep at *
  repeat' split at h
  all_goals simp_all

theorem runLoop_cons (s : Ctrl) (i : LoopInput) (rest : List LoopInput) :
    runLoop s (i :: rest) =
      if (loopStep s i).cont then
        ((runLoop (loopStep s i).st rest).1, (runLoop (loopStep s i).st rest).2.1,
          (loopStep s i).tr ++ (runLoop (loopStep s i).st rest).2.2)
      else (false, (loopStep s i).st, (loopStep s i).tr) := rfl

theorem loopStep_tick (s : Ctrl) :
    loopStep s LoopInput.tick = ⟨true, (tickStep s).1, (tickStep s).2⟩ := rfl

theorem tickRun :
    ∀ (n : Nat) (io : Bool) (v : Valves) (c : Nat), c < 10 →
      (runLoop ⟨State.WAITING, io, v, c⟩ (List.replicate n LoopInput.tick)).1 = true ∧
      (runLoop ⟨State.WAITING, io, v, c⟩ (List.replicate n LoopInput.tick)).2.1 =
        ⟨State.WAITING, io, v, (c + n) % 10⟩ ∧
      ((runLoop ⟨State.WAITING, io, v, c⟩ (List.replicate n LoopInput.tick)).2.2).countP isHb =
        (c + n) / 10 := by
  intro n
  induction n with
  | zero =>
    intro io v c hc
    refine ⟨rfl, ?_, ?_⟩
    · simp [runLoop, Nat.mod_eq_of_lt hc]
    · simp [runLoop, Nat.div_eq_of_lt hc]
  | succ n ih =>
    intro io v c hc
    rw [List.replicate_succ, runLoop_cons, loopStep_tick]
    by_cases hten : 10 ≤ c + 1
    · have hts : tickStep ⟨State.WAITING, io, v, c⟩ =
          (⟨State.WAITING, io, v, 0⟩, [Ev.send heartbeatMsg]) := by
        simp [tickStep, hten]
      obtain ⟨ih1, ih2, ih3⟩ := ih io v 0 (by omega)
      rw [hts]
      refine ⟨by simpa using ih1, ?_, ?_⟩
      · simp [ih1, ih2]
        omega
      · simp [ih1, ih3, isHb, List.countP_append, List.countP_cons]
        omega
    · have hts : tickStep ⟨State.WAITING, io, v, c⟩ =
          (⟨State.WAITING, io, v, c + 1⟩, []) := by
        simp [tickStep, hten]
      obtain ⟨ih1, ih2, ih3⟩ := ih io v (c + 1) (by omega)
      rw [hts]
      refine ⟨by simpa using ih1, ?_, ?_⟩
      · simp [ih1, ih2]
        omega
      · simp [ih1, ih3, List.countP_append]
        omega

theorem dispatchList_inert (s : Ctrl) :
    ∀ cmds : List (List Char),
      (∀ c ∈ cmds, hasSub pickupStr c = false ∧ hasSub dropStr c = false ∧
        hasSub finStr c = false) →
      dispatchList s cmds = (s, []) := by
  intro cmds
  induction cmds generalizing s with
  | nil => intro _; rfl
  | cons c rest ih =>
    intro h
    obtain ⟨h1, h2, h3⟩ := h c (List.mem_cons_self c rest)
    have hc : dispatchCmd s c = (s, []) := by
      unfold dispatchCmd
      rw [h1, h2, h3]
      simp
    simp [dispatchList, hc, ih s (fun d hd => h d (List.mem_cons_of_mem c hd))]

/-! ### Claims -/

/-- Claim C1: for every sequence of inbound command buffers, pump or vent
actuation is performed only when the delivery state is DELIVERING, and any
buffer containing none of the three recognized substrings causes no actuation
and no change to the delivery state or the logical valve state. -/
theorem c1_actuation_only_when_delivering :
    (∀ (s : Ctrl) (cmd : List Char) (e : Ev),
      e ∈ (dispatchCmd s cmd).2 → isActEv e = true → s.state = State.DELIVERING) ∧
    (∀ (s : Ctrl) (cmd : List Char),
      hasSub pickupStr cmd = false → hasSub dropStr cmd = false →
      hasSub finStr cmd = false → dispatchCmd s cmd = (s, [])) ∧
    (∀ (s : Ctrl) (cmds : List (List Char)),
      (∀ c ∈ cmds, hasSub pickupStr c = false ∧ hasSub dropStr c = false ∧
        hasSub finStr c = false) →
      dispatchList s cmds = (s, [])) := by
  refine ⟨?_, ?_, fun s cmds h => dispatchList_inert s cmds h⟩
  · intro s cmd e he _
    by_contra hne
    have hw : s.state = State.WAITING := by cases hst : s.state <;> simp_all
    rw [dispatchCmd_waiting s cmd hw] at he
    simp at he
  · intro s cmd h1 h2 h3
    unfold dispatchCmd
    rw [h1, h2, h3]
    simp

/-- Claim C1 witness: a concrete unrecognized buffer in DELIVERING is inert,
and the only actuation event of a concrete pickup dispatch happens in
DELIVERING. -/
theorem c1_witness :
    dispatchCmd ⟨State.DELIVERING, false, ⟨false, false⟩, 3⟩ ("hello world".data) =
      (⟨State.DELIVERING, false, ⟨false, false⟩, 3⟩, []) ∧
    (⟨State.DELIVERING, false, ⟨false, false⟩, 0⟩ : Ctrl).state = State.DELIVERING ∧
    dispatchList ⟨State.WAITING, false, ⟨false, false⟩, 0⟩ ["abc".data, "xyz".data] =
      (⟨State.WAITING, false, ⟨false, false⟩, 0⟩, []) := by
  refine ⟨?_, ?_, ?_⟩
  · exact c1_actuation_only_when_delivering.2.1 _ _ (by decide) (by decide) (by decide)
  · exact c1_actuation_only_when_delivering.1
      ⟨State.DELIVERING, false, ⟨false, false⟩, 0⟩ pickupStr (Ev.setPump true)
      (by decide) (by decide)
  · exact c1_actuation_only_when_delivering.2.2 _ _ (by decide)

/-- Claim C2: the de-energize-and-vent sequence (`pump_off`) always executes
the six steps deassert pump, wait 50 ms, assert vent, wait 1000 ms, deassert
vent, wait 50 ms in that fixed order regardless of prior state; after it the
pump and vent are both deasserted, so pump-energized and vent-open are never
simultaneously true at completion of either sequence — for `pump_on` this
rests on the vent being closed at every event-loop iteration boundary, which
is the invariant `Inv` preserved by every loop step. -/
theorem c2_deenergize_and_vent :
    (pump_off_tr = [Ev.setPump false, Ev.waitMs 50, Ev.setVent true, Ev.waitMs 1000,
      Ev.setVent false, Ev.waitMs 50]) ∧
    (∀ v : Valves, runTr v pump_off_tr = ⟨false, false⟩) ∧
    (∀ v : Valves, ¬((runTr v pump_off_tr).pump = true ∧ (runTr v pump_off_tr).vent = true)) ∧
    (∀ v : Valves, v.vent = false →
      (runTr v pump_on_tr).pump = true ∧ (runTr v pump_on_tr).vent = false) ∧
    Inv ctrl0 ∧
    (∀ (s : Ctrl) (i : LoopInput), Inv s → Inv (loopStep s i).st) := by
  refine ⟨rfl, runTr_pump_off, ?_, ?_, ⟨rfl, rfl⟩, fun s i h => loopStep_inv s i h⟩
  · intro v h
    rw [runTr_pump_off] at h
    exact absurd h.2 (by simp)
  · intro v hv
    rw [runTr_pump_on]
    exact ⟨rfl, hv⟩

/-- Claim C2 witness: evaluated with the pump energized and the vent closed. -/
theorem c2_witness :
    runTr ⟨true, false⟩ pump_off_tr = ⟨false, false⟩ ∧
    (runTr ⟨true, false⟩ pump_on_tr).pump = true ∧
    Inv (loopStep ⟨State.WAITING, false, ⟨false, false⟩, 0⟩ LoopInput.tick).st := by
  refine ⟨c2_deenergize_and_vent.2.1 ⟨true, false⟩, ?_, ?_⟩
  · exact (c2_deenergize_and_vent.2.2.2.1 ⟨true, false⟩ rfl).1
  · exact c2_deenergize_and_vent.2.2.2.2.2 ⟨State.WAITING, false, ⟨false, false⟩, 0⟩
      LoopInput.tick ⟨rfl, rfl⟩

/-- Claim C4: every invocation of the reconnect procedure that returns
success leaves the delivery state equal to WAITING and the heartbeat tick
counter equal to 0, whatever the state and counter were when the transport
failed. -/
theorem c4_reconnect_resets :
    ∀ (s : Ctrl) (n : Nat) (fin : RFinal), (reconnect s n fin).1 = true →
      (reconnect s n fin).2.1.state = State.WAITING ∧
        (reconnect s n fin).2.1.send_counter = 0 :=
  fun s n fin h => reconnect_success s n fin h

/-- Claim C4 witness: a reconnect succeeding after 3 failed attempts, from
mid-delivery with a nonzero counter. -/
theorem c4_witness :
    (reconnect ⟨State.DELIVERING, true, ⟨true, false⟩, 7⟩ 3 RFinal.connOk).2.1.state =
        State.WAITING ∧
      (reconnect ⟨State.DELIVERING, true, ⟨true, false⟩, 7⟩ 3 RFinal.connOk).2.1.send_counter =
        0 :=
  c4_reconnect_resets ⟨State.DELIVERING, true, ⟨true, false⟩, 7⟩ 3 RFinal.connOk (by decide)

/-- Claim C5 counterexample: in DELIVERING with the pump already energized
(a reachable state: one earlier "pickup reached" energized it), two
consecutive "pickup reached" buffers perform zero pump actuations, not
exactly one. -/
theorem c5_counterexample :
    ((dispatchCmd ⟨State.DELIVERING, true, ⟨true, false⟩, 0⟩ pickupStr).2 ++
        (dispatchCmd (dispatchCmd ⟨State.DELIVERING, true, ⟨true, false⟩, 0⟩ pickupStr).1
          pickupStr).2).countP isPumpEv = 0 ∧
    ¬(((dispatchCmd ⟨State.DELIVERING, true, ⟨true, false⟩, 0⟩ pickupStr).2 ++
        (dispatchCmd (dispatchCmd ⟨State.DELIVERING, true, ⟨true, false⟩, 0⟩ pickupStr).1
          pickupStr).2).countP isPumpEv = 1) := by
  decide

/-- Claim C5 (amended): in DELIVERING with the pump not already energized,
two consecutive buffers containing "pickup reached" with no intervening
"drop reached" perform exactly one pump actuation; and regardless of the
initial pump state, processing the second such buffer is a no-op, so the
state after two buffers equals the state after one. -/
theorem c5_energize_idempotent :
    (∀ (s : Ctrl) (cmd : List Char), s.state = State.DELIVERING → s.is_on = false →
      hasSub pickupStr cmd = true →
      ((dispatchCmd s cmd).2 ++ (dispatchCmd (dispatchCmd s cmd).1 cmd).2).countP isPumpEv
        = 1) ∧
    (∀ (s : Ctrl) (cmd : List Char), hasSub pickupStr cmd = true →
      dispatchCmd (dispatchCmd s cmd).1 cmd = ((dispatchCmd s cmd).1, [])) := by
  constructor
  · intro s cmd hst hon hsub
    have h1 : dispatchCmd s cmd =
        ({ s with is_on := true, valves := runTr s.valves pump_on_tr }, pump_on_tr) := by
      unfold dispatchCmd
      rw [hst, hsub, hon]
      simp
    have h2 : dispatchCmd ({ s with is_on := true, valves := runTr s.valves pump_on_tr }) cmd
        = ({ s with is_on := true, valves := runTr s.valves pump_on_tr }, []) := by
      unfold dispatchCmd
      rw [hsub]
      simp [hst]
    rw [h1]
    simp only [h2]
    simp [pump_on_tr, isPumpEv]
  · intro s cmd hsub
    by_cases hst : s.state = State.DELIVERING
    · by_cases hon : s.is_on
      · have h1 : dispatchCmd s cmd = (s, []) := by
          unfold dispatchCmd
          rw [hst, hsub, hon]
          simp
        rw [h1, h1]
      · have hon' : s.is_on = false := by simpa using hon
        have h1 : dispatchCmd s cmd =
            ({ s with is_on := true, valves := runTr s.valves pump_on_tr }, pump_on_tr) := by
          unfold dispatchCmd
          rw [hst, hsub, hon']
          simp
        rw [h1]
        unfold dispatchCmd
        rw [hsub]
        simp [hst]
    · have hw : s.state = State.WAITING := by cases h : s.state <;> simp_all
      rw [dispatchCmd_waiting s cmd hw, dispatchCmd_waiting s cmd hw]

/-- Claim C5 witness: fresh DELIVERING state, pump off, buffer with
surrounding text. -/
theorem c5_witness :
    ((dispatchCmd ⟨State.DELIVERING, false, ⟨false, false⟩, 0⟩ (">> pickup reached <<".data)).2
        ++ (dispatchCmd
          (dispatchCmd ⟨State.DELIVERING, false, ⟨false, false⟩, 0⟩
            (">> pickup reached <<".data)).1 (">> pickup reached <<".data)).2).countP isPumpEv
      = 1 :=
  c5_energize_idempotent.1 ⟨State.DELIVERING, false, ⟨false, false⟩, 0⟩
    (">> pickup reached <<".data) rfl rfl (by decide)

/-- Claim C6 counterexample: the WAITING-to-DELIVERING transition (newline on
stdin while WAITING) does not reset the tick counter: from counter 5 it stays
5 after the transition, so the counter is not reset whenever the delivery
state leaves WAITING. -/
theorem c6_counterexample :
    (stdinStep ⟨State.WAITING, false, ⟨false, false⟩, 5⟩ '\n').1.state = State.DELIVERING ∧
    (stdinStep ⟨State.WAITING, false, ⟨false, false⟩, 5⟩ '\n').1.send_counter = 5 := by
  decide

/-- Claim C6 (amended): the heartbeat tick counter only increments while the
delivery state is WAITING, and it is reset to zero whenever a heartbeat
message is sent and whenever a reconnect succeeds; it is NOT reset on the
WAITING-to-DELIVERING transition, which leaves its value unchanged (as do
command dispatches). -/
theorem c6_counter_discipline :
    (∀ s : Ctrl, s.state = State.DELIVERING → tickStep s = (s, [])) ∧
    (∀ s : Ctrl, s.state = State.WAITING → 9 ≤ s.send_counter →
      (tickStep s).1.send_counter = 0 ∧ (tickStep s).2 = [Ev.send heartbeatMsg]) ∧
    (∀ s : Ctrl, s.state = State.WAITING → s.send_counter < 9 →
      (tickStep s).1.send_counter = s.send_counter + 1 ∧ (tickStep s).2 = []) ∧
    (∀ (s : Ctrl) (c : Char), (stdinStep s c).1.send_counter = s.send_counter) ∧
    (∀ (s : Ctrl) (cmd : List Char), (dispatchCmd s cmd).1.send_counter = s.send_counter) ∧
    (∀ (s : Ctrl) (n : Nat) (fin : RFinal), (reconnect s n fin).1 = true →
      (reconnect s n fin).2.1.send_counter = 0) := by
  refine ⟨?_, ?_, ?_, ?_, fun s cmd => dispatchCmd_counter s cmd,
    fun s n fin h => (reconnect_success s n fin h).2⟩
  · intro s h
    unfold tickStep
    rw [h]
    simp
  · intro s h hc
    unfold tickStep
    rw [h, if_pos rfl, if_pos (show 10 ≤ s.send_counter + 1 by omega)]
    exact ⟨rfl, rfl⟩
  · intro s h hc
    unfold tickStep
    rw [h, if_pos rfl, if_neg (show ¬10 ≤ s.send_counter + 1 by omega)]
    exact ⟨rfl, rfl⟩
  · intro s c
    unfold stdinStep
    split
    all_goals simp

/-- Claim C6 witness: a tick in DELIVERING is inert; a tick at counter 9 in
WAITING emits and resets; a tick at counter 4 increments; dispatch and a
successful reconnect behave as stated. -/
theorem c6_witness :
    tickStep ⟨State.DELIVERING, true, ⟨true, false⟩, 4⟩ =
      (⟨State.DELIVERING, true, ⟨true, false⟩, 4⟩, []) ∧
    (tickStep ⟨State.WAITING, false, ⟨false, false⟩, 9⟩).1.send_counter = 0 ∧
    (tickStep ⟨State.WAITING, false, ⟨false, false⟩, 4⟩).1.send_counter = 5 ∧
    (reconnect ⟨State.DELIVERING, true, ⟨true, false⟩, 8⟩ 1 RFinal.connOk).2.1.send_counter
      = 0 := by
  refine ⟨c6_counter_discipline.1 _ rfl, (c6_counter_discipline.2.1 _ rfl (by decide)).1,
    ?_, c6_counter_discipline.2.2.2.2.2 _ 1 RFinal.connOk (by decide)⟩
  exact (c6_counter_discipline.2.2.1 ⟨State.WAITING, false, ⟨false, false⟩, 4⟩ rfl
    (by decide)).1

/-- Claim C7: in a run that stays in WAITING with only periodic ticks, the
heartbeat is emitted exactly once per 10 consecutive ticks (n ticks from a
zero counter emit n / 10 heartbeats, the counter ends at n % 10, and the
(k+1)-th tick emits precisely when k + 1 is a multiple of 10), and the
counter is 0 immediately after every emission. -/
theorem c7_heartbeat_period :
    ∀ (s : Ctrl) (n : Nat), s.state = State.WAITING → s.send_counter = 0 →
      ((runLoop s (List.replicate n LoopInput.tick)).2.2).countP isHb = n / 10 ∧
      (runLoop s (List.replicate n LoopInput.tick)).2.1.send_counter = n % 10 ∧
      (∀ k : Nat,
        (tickStep ((runLoop s (List.replicate k LoopInput.tick)).2.1)).2 ≠ [] ↔
          (k + 1) % 10 = 0) ∧
      (∀ s' : Ctrl, (tickStep s').2 ≠ [] → (tickStep s').1.send_counter = 0) := by
  intro s n hs hc
  obtain ⟨st, io, v, c⟩ := s
  dsimp only at hs hc
  subst hs
  subst hc
  obtain ⟨h1, h2, h3⟩ := tickRun n io v 0 (by omega)
  refine ⟨by simpa using h3, by rw [h2]; simp, ?_, fun s' h => tickStep_reset s' h⟩
  intro k
  obtain ⟨g1, g2, g3⟩ := tickRun k io v 0 (by omega)
  rw [g2, tickStep_emits]
  dsimp only
  constructor
  · rintro ⟨_, hk⟩
    omega
  · intro hk
    exact ⟨rfl, by omega⟩

/-- Claim C7 witness: 20 ticks from the initial state emit 2 heartbeats and
leave the counter at 0. -/
theorem c7_witness :
    ((runLoop ctrl0 (List.replicate 20 LoopInput.tick)).2.2).countP isHb = 2 ∧
    (runLoop ctrl0 (List.replicate 20 LoopInput.tick)).2.1.send_counter = 0 := by
  obtain ⟨h1, h2, _, _⟩ := c7_heartbeat_period ctrl0 20 rfl rfl
  exact ⟨by simpa using h1, by simpa using h2⟩

/-- Claim C8 counterexample: a read failure whose reconnect run observes the
shutdown flag makes the process exit through the safe-shutdown path with
exit status 0, not a non-zero failure status as the claim states. -/
theorem c8_counterexample :
    runProgram ctrl0 [LoopInput.ready none (some (SockEvent.rerr 0 RFinal.shutdown))] =
      some (ctrl0, [Ev.closeFd, Ev.closeFd, Ev.setPump false, Ev.setVent false, Ev.release],
        0) := by
  decide

/-- Claim C8 (amended): read failure, peer close and multiplexer error all
funnel into the reconnect procedure, which retries with a fixed 5-second
backoff per failed connect attempt and succeeds after any number of
failures; when reconnect is abandoned (shutdown flag set, or socket creation
failure, while retrying) the event loop exits and the process finishes
through the safe-shutdown path with exit status 0. -/
theorem c8_transient_errors :
    (∀ (s : Ctrl) (n : Nat) (fin : RFinal),
      ((reconnect s n fin).2.2).countP (fun e => e == Ev.waitMs 5000) = n) ∧
    (∀ (s : Ctrl) (n : Nat) (fin : RFinal),
      loopStep s (LoopInput.ready none (some (SockEvent.rerr n fin))) =
        ⟨(reconnect s n fin).1, (reconnect s n fin).2.1,
          Ev.closeFd :: (reconnect s n fin).2.2⟩) ∧
    (∀ (s : Ctrl) (n : Nat) (fin : RFinal),
      loopStep s (LoopInput.ready none (some (SockEvent.closed n fin))) =
        ⟨(reconnect s n fin).1, (reconnect s n fin).2.1,
          Ev.closeFd :: (reconnect s n fin).2.2⟩) ∧
    (∀ (s : Ctrl) (n : Nat) (fin : RFinal),
      loopStep s (LoopInput.selErr n fin) =
        ⟨(reconnect s n fin).1, (reconnect s n fin).2.1,
          Ev.closeFd :: (reconnect s n fin).2.2⟩) ∧
    (∀ (s : Ctrl) (n : Nat), (reconnect s n RFinal.connOk).1 = true) ∧
    (∀ (s : Ctrl) (ins : List LoopInput) (r : Ctrl × List Ev × Nat),
      runProgram s ins = some r → r.2.2 = 0) := by
  refine ⟨fun s n fin => reconnect_backoff s n fin, fun s n fin => rfl, fun s n fin => rfl,
    fun s n fin => rfl, fun s n => reconnect_connOk s n, ?_⟩
  intro s ins r h
  unfold runProgram at h
  by_cases hrl : (runLoop s ins).1 = true
  · rw [if_pos hrl] at h
    cases h
  · rw [if_neg hrl] at h
    rw [← Option.some.inj h]
    rfl

/-- Claim C8 witness: 4 failed attempts give 4 backoff sleeps; reconnect
succeeds after them; a concrete exiting run returns status 0. -/
theorem c8_witness :
    ((reconnect ctrl0 4 RFinal.connOk).2.2).countP (fun e => e == Ev.waitMs 5000) = 4 ∧
    (reconnect ctrl0 4 RFinal.connOk).1 = true ∧
    ((ctrl0, [Ev.closeFd, Ev.setPump false, Ev.setVent false, Ev.release], 0) :
      Ctrl × List Ev × Nat).2.2 = 0 := by
  refine ⟨c8_transient_errors.1 ctrl0 4 RFinal.connOk,
    c8_transient_errors.2.2.2.2.1 ctrl0 4, ?_⟩
  exact c8_transient_errors.2.2.2.2.2 ctrl0 [LoopInput.shutdown] _ (by decide)

/-- Claim C9: contrary to the claim, a `socket()` failure on the very first
connection attempt does not abort the process: it breaks out of the connect
loop (line 132) and, the interrupt flag still being true, falls through past
the `keep_running` checks into the event loop with an invalid descriptor.
Only a shutdown observed during the initial connect phase returns 1 before
the event loop. -/
theorem c9_first_socket_failure :
    (initPhase 0 InitOutcome.sockCreateFail).exited = none ∧
    (initPhase 0 InitOutcome.sockCreateFail).tr = startupTr ∧
    (initPhase 0 InitOutcome.shutdownObserved).exited = some 1 := by
  decide

/-- A buffer containing two recognized substrings, used to exercise the
dispatch priority. -/
def bothStr : List Char := "pickup reached, then drop reached".data

/-- Claim C10: when a received buffer contains more than one recognized
substring, exactly one command takes effect, chosen by the fixed priority
"pickup reached" over "drop reached" over "one sticker finished": dispatch
of any buffer equals dispatch of its highest-priority substring alone; in
particular a buffer containing both "pickup reached" and "drop reached"
energizes the pump (when it was off) and performs no de-energize sequence. -/
theorem c10_command_priority :
    (∀ (s : Ctrl) (cmd : List Char), hasSub pickupStr cmd = true →
      dispatchCmd s cmd = dispatchCmd s pickupStr) ∧
    (∀ (s : Ctrl) (cmd : List Char), hasSub pickupStr cmd = false →
      hasSub dropStr cmd = true → dispatchCmd s cmd = dispatchCmd s dropStr) ∧
    (∀ (s : Ctrl) (cmd : List Char), hasSub pickupStr cmd = false →
      hasSub dropStr cmd = false → hasSub finStr cmd = true →
      dispatchCmd s cmd = dispatchCmd s finStr) ∧
    (∀ s : Ctrl, s.state = State.DELIVERING → s.is_on = false →
      (dispatchCmd s bothStr).2 = [Ev.setPump true] ∧
      (dispatchCmd s bothStr).1.is_on = true) ∧
    (∀ s : Ctrl, s.state = State.DELIVERING → s.is_on = true →
      dispatchCmd s bothStr = (s, [])) := by
  refine ⟨?_, ?_, ?_, ?_, ?_⟩
  · intro s cmd h
    unfold dispatchCmd
    rw [h, (by decide : hasSub pickupStr pickupStr = true)]
    simp
  · intro s cmd h1 h2
    unfold dispatchCmd
    rw [h1, h2, (by decide : hasSub pickupStr dropStr = false),
      (by decide : hasSub dropStr dropStr = true)]
    simp
  · intro s cmd h1 h2 h3
    unfold dispatchCmd
    rw [h1, h2, h3, (by decide : hasSub pickupStr finStr = false),
      (by decide : hasSub dropStr finStr = false),
      (by decide : hasSub finStr finStr = true)]
  · intro s hst hon
    unfold dispatchCmd
    rw [hst, hon, (by decide : hasSub pickupStr bothStr = true)]
    simp [pump_on_tr]
  · intro s hst hon
    unfold dispatchCmd
    rw [hst, hon, (by decide : hasSub pickupStr bothStr = true)]
    simp

/-- Claim C10 witness: a both-substrings buffer in DELIVERING with the pump
off dispatches exactly like a pure "pickup reached" buffer and energizes. -/
theorem c10_witness :
    dispatchCmd ⟨State.DELIVERING, false, ⟨false, false⟩, 0⟩ bothStr =
      dispatchCmd ⟨State.DELIVERING, false, ⟨false, false⟩, 0⟩ pickupStr ∧
    (dispatchCmd ⟨State.DELIVERING, false, ⟨false, false⟩, 0⟩ bothStr).2 =
      [Ev.setPump true] := by
  refine ⟨c10_command_priority.1 _ _ (by decide), (c10_command_priority.2.2.2.1 _ rfl rfl).1⟩

/-- Claim C3: on startup both lines are deasserted before any other
operation; when the event loop exits (clean or interrupted) the shutdown
path runs the full six-step de-energize-and-vent sequence when the pump is
logically energized and otherwise forces both lines deasserted, releasing
the line request last; the release also happens on the pre-loop interrupted
exit path. -/
theorem c3_startup_shutdown_safety :
    (∀ (n : Nat) (fin : InitOutcome),
      ∃ r, (initPhase n fin).tr = Ev.setPump false :: Ev.setVent false :: r) ∧
    (∀ s : Ctrl, s.is_on = true →
      (exitSeq s).2.1 = Ev.closeFd :: pump_off_tr ++ [Ev.release]) ∧
    (∀ s : Ctrl, s.is_on = false →
      (exitSeq s).2.1 = [Ev.closeFd, Ev.setPump false, Ev.setVent false, Ev.release]) ∧
    (∀ n : Nat, Ev.release ∈ (initPhase n InitOutcome.shutdownObserved).tr) ∧
    (∀ (s : Ctrl) (ins : List LoopInput) (r : Ctrl × List Ev × Nat),
      runProgram s ins = some r → Ev.release ∈ r.2.1) := by
  refine ⟨?_, ?_, ?_, ?_, ?_⟩
  · intro n fin
    cases fin <;> exact ⟨_, rfl⟩
  · intro s h
    unfold exitSeq
    rw [h]
    simp
  · intro s h
    unfold exitSeq
    rw [h]
    simp
  · intro n
    simp [initPhase, startupTr]
  · intro s ins r h
    unfold runProgram at h
    by_cases hrl : (runLoop s ins).1 = true
    · rw [if_pos hrl] at h
      cases h
    · rw [if_neg hrl] at h
      rw [← Option.some.inj h]
      dsimp only
      apply List.mem_append_right
      unfold exitSeq
      simp

/-- Claim C3 witness: concrete init phase, energized and de-energized
shutdown traces, and release on the interrupted pre-loop path. -/
theorem c3_witness :
    (∃ r, (initPhase 1 InitOutcome.connected).tr =
      Ev.setPump false :: Ev.setVent false :: r) ∧
    (exitSeq ⟨State.DELIVERING, true, ⟨true, false⟩, 2⟩).2.1 =
      Ev.closeFd :: pump_off_tr ++ [Ev.release] ∧
    (exitSeq ctrl0).2.1 = [Ev.closeFd, Ev.setPump false, Ev.setVent false, Ev.release] ∧
    Ev.release ∈ (initPhase 2 InitOutcome.shutdownObserved).tr := by
  refine ⟨c3_startup_shutdown_safety.1 1 InitOutcome.connected,
    c3_startup_shutdown_safety.2.1 _ rfl, c3_startup_shutdown_safety.2.2.1 ctrl0 rfl,
    c3_startup_shutdown_safety.2.2.2.1 2⟩

end PumpControl


